import Mathlib

/-!
Verification development for a pair of C mail servers (a POP3 server and an
SMTP server) sharing a buffered socket line reader.

Lines arriving from the network are modelled as lists of byte values
(`List Nat`); a byte value 0 is a NUL byte, 13 is CR, 10 is LF.  The C code
frequently treats the received buffer both as a sized region (`reply`,
`reply_size`) and as a NUL-terminated C string (`sscanf`, `strchr`, `strcat`),
so the model keeps both views: the full byte list, and `cstr`, its prefix up
to the first NUL.

The per-connection handlers `handle_client` of popd.c and smtpd.c are
modelled as step functions on explicit session-state records; one step
consumes one line produced by `sb_read_line` and yields the updated state
together with the list of protocol replies sent for that line.  The socket
buffer `sb_read_line` of socketbuffer.c is modelled over an explicit list of
network events (data chunks / orderly close / read error) standing for the
successive results of `recv`.
-/

set_option maxRecDepth 20000

namespace MailServer

/-! ## C character classification and string helpers -/

/-- C `isspace` on a byte, in the POSIX locale: space (32) or 9..13. -/
def isspaceB (c : Nat) : Bool := c == 32 || (9 ≤ c && c ≤ 13)

/-- C `isdigit` on a byte. -/
def isdigitB (c : Nat) : Bool := 48 ≤ c && c ≤ 57

/-- C `toupper` on a byte (only ASCII letters move, as in `uppercase`). -/
def ucByte (c : Nat) : Nat := if 97 ≤ c && c ≤ 122 then c - 32 else c

/-- Byte list of an ASCII string literal. -/
def strBytes (s : String) : List Nat := s.toList.map Char.toNat

/-- The C-string view of a byte buffer: everything before the first NUL. -/
def cstr (l : List Nat) : List Nat := l.takeWhile (fun c => c != 0)

/-- The first whitespace-delimited token of the buffer's C-string view;
this is what `sscanf(reply, "%s", command)` stores into `command` when it
fits the 41-byte buffer — the session step functions crash when it does
not, since the unbounded `%s` then writes out of bounds.
(When the view is empty or all whitespace, `sscanf` matches nothing and
leaves `command` stale; such lines never pass `checkCRLF`, and the model
uses the empty token, which matches no keyword.) -/
def firstToken (l : List Nat) : List Nat :=
  ((cstr l).dropWhile isspaceB).takeWhile (fun c => !isspaceB c)

/-- `strcasecmp(tok, kw) == 0` for an all-uppercase keyword `kw`. -/
def tokenIs (l : List Nat) (kw : String) : Bool :=
  l.map ucByte == strBytes kw

/-! ## Line admissibility checks (identical in popd.c and smtpd.c) -/

/-- `checkCRLF` of popd.c / smtpd.c: 1 iff the line ends with CR LF, has at
least one more byte than the bare CRLF pair, and the byte before the CR is
not whitespace.  Note the second guard is `size > 3`, so a 3-byte line is
always rejected. -/
def checkCRLF (str : List Nat) : Bool :=
  if str.length == 2 && str.getD (str.length - 2) 0 == 13 &&
      str.getD (str.length - 1) 0 == 10 then
    false
  else if str.length > 3 && str.getD (str.length - 2) 0 == 13 &&
      str.getD (str.length - 1) 0 == 10 then
    !isspaceB (str.getD (str.length - 3) 0)
  else
    false

/-- `checkCRLFSimple`: 1 iff the line ends with CR LF. -/
def checkCRLFSimple (str : List Nat) : Bool :=
  str.length > 1 && str.getD (str.length - 2) 0 == 13 && str.getD (str.length - 1) 0 == 10

/-- `retrieveArgs`: find the first space in the C-string view and apply
`strtok(ret + 1, "\r")` to what follows: skip leading CRs, return up to the
next CR, or NULL when nothing but delimiters remains (or no space exists). -/
def retrieveArgs (l : List Nat) : Option (List Nat) :=
  let s := cstr l
  match s.findIdx? (fun c => c == 32) with
  | none => none
  | some i =>
    let rest := (s.drop (i + 1)).dropWhile (fun c => c == 13)
    if rest.isEmpty then none else some (rest.takeWhile (fun c => c != 13))

/-- `numbers_only`: every byte of the argument is an ASCII digit
(vacuously 1 on the empty string, as in the C loop). -/
def numbers_only (s : List Nat) : Bool := s.all isdigitB

/-- Numeric value of a digit string, as accumulated by `strtol` base 10. -/
def natOfDigits (s : List Nat) : Nat := s.foldl (fun acc d => acc * 10 + (d - 48)) 0

/-- The index actually used by the sessions:
`(unsigned int)(int)strtol(arg, NULL, 10)` — `strtol` clamps at `LONG_MAX`
on overflow, the `(int)` cast truncates to 32 bits (two's complement), and
the `unsigned int` target reads those 32 bits back, i.e. mod 2^32. -/
def parseIndex (s : List Nat) : Nat := (min (natOfDigits s) (2 ^ 63 - 1)) % 2 ^ 32

/-- `index - 1` computed on a C `unsigned int`. -/
def uintSub1 (n : Nat) : Nat := (n + (2 ^ 32 - 1)) % 2 ^ 32

/-- Value printed by `%d` for an `unsigned int`/truncated `size_t` argument:
the low 32 bits reinterpreted as a signed two's-complement int. -/
def toCInt (n : Nat) : Int :=
  if n % 2 ^ 32 < 2 ^ 31 then ((n % 2 ^ 32 : Nat) : Int)
  else ((n % 2 ^ 32 : Nat) : Int) - ((2 ^ 32 : Nat) : Int)

/-! ## Mail store (spec-modelled) -/

/-- Modelled from the spec: a mail item of the store behind `user.h`
(`user.c` is not among the repository sources).  Per §3 a `MailItem` has a
size in octets, a mutable `deleted` flag, and stored content (streamed by
RETR). -/
structure MailItem where
  size : Nat
  deleted : Bool
  content : List Nat
deriving DecidableEq

/-- Modelled from the spec: `get_mail_count` — §3/§4.4: "its count is the
number of non-deleted items". -/
def get_mail_count (list : List MailItem) : Nat :=
  (list.filter (fun m => !m.deleted)).length

/-- Modelled from the spec: `get_mail_list_size` — §3/§4.4: "The snapshot's
total size is the sum of sizes of non-deleted items". -/
def get_mail_list_size (list : List MailItem) : Nat :=
  ((list.filter (fun m => !m.deleted)).map MailItem.size).sum

/-- Modelled from the spec: `get_mail_item` — §4.4 "returns the item or a
null indicator"; per §4.2 (LIST i / RETR i answer `-ERR` on deleted items
without any further check in the session) a deleted item yields the null
indicator. The argument is the 0-based position. -/
def get_mail_item (list : List MailItem) (i : Nat) : Option MailItem :=
  if h : i < list.length then
    let m := list.get ⟨i, h⟩
    if m.deleted then none else some m
  else none

/-- Modelled from the spec: `mark_mail_item_deleted` sets the item's
`deleted` flag (held in memory in the snapshot). -/
def mark_mail_item_deleted : List MailItem → Nat → List MailItem
  | [], _ => []
  | m :: rest, 0 => { m with deleted := true } :: rest
  | m :: rest, i + 1 => m :: mark_mail_item_deleted rest i

/-- Modelled from the spec: `reset_mail_list_deleted_flag` — §3: "RSET
clears all `deleted` flags in the snapshot". -/
def reset_mail_list_deleted_flag (list : List MailItem) : List MailItem :=
  list.map (fun m => { m with deleted := false })

/-! ## POP3 session (popd.c `handle_client`) -/

/-- One message sent back to the POP3 client.  Count-carrying replies hold
the two integers actually printed by `sprintf("%d %d", ...)`. -/
inductive PopReply where
  | welcome
  | ok
  | err
  | okCount (n s : Int)
  | countLine (n s : Int)
  | dot
  | raw (bytes : List Nat)
deriving DecidableEq

/-- The literal wire bytes of each POP3 reply (§6). -/
def popReplyString : PopReply → String
  | .welcome => "+OK POP3 Server Ready\r\n"
  | .ok => "+OK\r\n"
  | .err => "-ERR\r\n"
  | .okCount n s => "+OK " ++ toString n ++ " " ++ toString s ++ "\r\n"
  | .countLine n s => toString n ++ " " ++ toString s ++ "\r\n"
  | .dot => ".\r\n"
  | .raw bytes => String.mk (bytes.map Char.ofNat)

/-- `sendPositive`. -/
def sendPositive : PopReply := .ok

/-- `sendNegative`. -/
def sendNegative : PopReply := .err

/-- `sendCountPositive(fd, mailCount, size)`: `sprintf(count, "+OK %d %d\r\n",
mailCount, (int)size)` — both numbers go through the signed-32-bit rendering
(`mailCount` is an `unsigned int` printed with `%d`; `size` is a `size_t`
cast to `int`). -/
def sendCountPositive (mailCount : Nat) (size : Nat) : PopReply :=
  .okCount (toCInt mailCount) (toCInt size)

/-- `sendCount(fd, mailCount, size)`: `sprintf(count, "%d %d\r\n", ...)`. -/
def sendCount (mailCount : Nat) (size : Nat) : PopReply :=
  .countLine (toCInt mailCount) (toCInt size)

/-- The state variables of popd.c's `handle_client`. -/
structure PopState where
  authorization : Bool
  transaction : Bool
  accepted_user : Bool
  username : List Nat
  mailList : List MailItem
  mailCount : Nat
deriving DecidableEq

/-- Session start: `authorization = 1`, everything else cleared. -/
def popInit : PopState :=
  { authorization := true, transaction := false, accepted_user := false,
    username := [], mailList := [], mailCount := 0 }

/-- The external user store consumed by the POP3 session (`user.h`):
`is_valid_user(name, NULL)`, `is_valid_user(name, pass)`, and
`load_user_mail(name)`. -/
structure PopEnv where
  validUser : List Nat → Bool
  checkPass : List Nat → List Nat → Bool
  loadMail : List Nat → List MailItem

/-- Result of processing one line: continue with a new state after sending
some replies, quit (the `break` after QUIT), or crash (the code path that
passes the NULL result of `retrieveArgs` to `strcpy`, reachable e.g. on a
line whose token is USER with an argument separated by a tab instead of a
space). -/
inductive PopOutcome where
  | cont (st : PopState) (sends : List PopReply)
  | quit (sends : List PopReply)
  | crash
deriving DecidableEq

/-- Chunks of a stored mail file as read by `readEmail`'s loop: each chunk
runs up to and including an LF; a final chunk with no LF is never sent. -/
def splitContentLines : List Nat → List Nat → List (List Nat)
  | [], _ => []
  | c :: rest, acc =>
    if c == 10 then (acc ++ [c]) :: splitContentLines rest []
    else splitContentLines rest (acc ++ [c])

/-- `readEmail` (the open always succeeding, the store being external):
`+OK`, then each LF-terminated chunk via `send_all(fd, content,
strlen(content))` (truncating at a NUL), then `.`. -/
def readEmail (mail : MailItem) : List PopReply :=
  [sendPositive] ++ (splitContentLines mail.content []).map (fun l => .raw (cstr l)) ++ [.dot]

/-- One iteration of popd.c's `handle_client` loop on a received line. -/
def popStep (env : PopEnv) (st : PopState) (line : List Nat) : PopOutcome :=
  let size := line.length
  let command := firstToken line
  -- sscanf(reply, "%s", command) writes the first token and a terminating
  -- NUL into char command[41] BEFORE checkCRLF runs; a token longer than
  -- 40 bytes is an out-of-bounds write — undefined behaviour, modelled as
  -- a crash before anything else happens.
  if 40 < command.length then .crash
  else if checkCRLF line then
    if st.authorization then
      -- STATE: AUTHORIZATION
      if tokenIs command "USER" then
        if size != 6 then
          match retrieveArgs line with
          | none => .crash
          | some arg =>
            if env.validUser arg then
              .cont { st with username := arg, accepted_user := true } [sendPositive]
            else
              .cont { st with username := arg } [sendNegative]
        else .cont st [sendNegative]
      else if tokenIs command "PASS" then
        if st.accepted_user && size != 6 then
          match retrieveArgs line with
          | none => .crash
          | some pw =>
            if env.checkPass st.username pw then
              let ml := env.loadMail st.username
              .cont { st with authorization := false, transaction := true,
                              mailList := ml, mailCount := get_mail_count ml } [sendPositive]
            else
              .cont { st with accepted_user := false } [sendNegative]
        else .cont { st with accepted_user := false } [sendNegative]
      else if tokenIs command "QUIT" && size == 6 then
        .quit [sendPositive]
      else .cont st [sendNegative]
    else if st.transaction then
      -- STATE: TRANSACTION
      if tokenIs command "STAT" && size == 6 then
        .cont st [sendCountPositive (get_mail_count st.mailList) (get_mail_list_size st.mailList)]
      else if tokenIs command "LIST" then
        if size == 6 then
          let header := sendCountPositive (get_mail_count st.mailList) (get_mail_list_size st.mailList)
          let lines := (List.range st.mailCount).filterMap (fun i =>
            match get_mail_item st.mailList i with
            | some m => some (sendCount (i + 1) m.size)
            | none => none)
          .cont st ([header] ++ lines ++ [.dot])
        else
          match retrieveArgs line with
          | some arg =>
            if numbers_only arg then
              let index := parseIndex arg
              match get_mail_item st.mailList (uintSub1 index) with
              | some m => .cont st [sendCountPositive index m.size]
              | none => .cont st [sendNegative]
            else .cont st [sendNegative]
          | none => .cont st [sendNegative]
      else if tokenIs command "RETR" then
        match retrieveArgs line with
        | some arg =>
          if numbers_only arg then
            match get_mail_item st.mailList (uintSub1 (parseIndex arg)) with
            | some m => .cont st (readEmail m)
            | none => .cont st [sendNegative]
          else .cont st [sendNegative]
        | none => .cont st [sendNegative]
      else if tokenIs command "DELE" then
        match retrieveArgs line with
        | some arg =>
          if numbers_only arg then
            let i0 := uintSub1 (parseIndex arg)
            match get_mail_item st.mailList i0 with
            | some _ =>
              .cont { st with mailList := mark_mail_item_deleted st.mailList i0 } [sendPositive]
            | none => .cont st [sendNegative]
          else .cont st [sendNegative]
        | none => .cont st [sendNegative]
      else if tokenIs command "NOOP" then
        .cont st [sendPositive]
      else if tokenIs command "RSET" && size == 6 then
        let ml := reset_mail_list_deleted_flag st.mailList
        .cont { st with mailList := ml }
          [sendCountPositive (get_mail_count ml) (get_mail_list_size ml)]
      else if tokenIs command "QUIT" && size == 6 then
        .quit [sendPositive]
      else .cont st [sendNegative]
    else
      -- "Should not ever reach this block"
      .cont st [sendNegative]
  else
    -- line did not pass checkCRLF
    .cont st [sendNegative]



/-! ## SMTP session (smtpd.c `handle_client`) -/

/-- One SMTP reply (§6); host-carrying replies (`220`, `250 <hostname>`)
are constructors, their hostname being a runtime value. -/
inductive SmtpReply where
  | r220host
  | r221
  | r250ok
  | r250host
  | r354
  | r451
  | r500
  | r501
  | r502
  | r503
  | r555
deriving DecidableEq

/-- The literal wire bytes of each SMTP reply (§6). -/
def smtpReplyString (hostname : String) : SmtpReply → String
  | .r220host => "220 " ++ hostname ++ " SMTP Server Ready\r\n"
  | .r221 => "221 OK\r\n"
  | .r250ok => "250 OK\r\n"
  | .r250host => "250 " ++ hostname ++ "\r\n"
  | .r354 => "354 End data with <CRLF>.<CRLF>\r\n"
  | .r451 => "451 Requested action aborted: error in processing\r\n"
  | .r500 => "500 Syntax error, command unrecognized\r\n"
  | .r501 => "501 Syntax error in parameters or arguments\r\n"
  | .r502 => "502 Command not implemented\r\n"
  | .r503 => "503 Bad sequence of commands\r\n"
  | .r555 => "555 Recipient not recognized\r\n"

/-- `checkMailSyntax`: first `<` and last `>` exist with at least one byte
strictly between them, the first token starts with `FROM:<`
(case-insensitively, `sscanf("%6s")`), and the last byte is `>`. -/
def checkMailFmt (str : List Nat) : Bool :=
  match str.findIdx? (fun c => c == 60),
        ((List.range str.length).filter (fun k => str.getD k 0 == 62)).getLast? with
  | some i, some j =>
    if i + 1 < j then
      let tok := ((str.dropWhile isspaceB).takeWhile (fun c => !isspaceB c)).take 6
      tok.map ucByte == strBytes "FROM:<" && str.getD (str.length - 1) 0 == 62
    else false
  | _, _ => false

/-- `checkRcptSyntax`: as `checkMailSyntax` with `TO:<` (`sscanf("%4s")`). -/
def checkRcptFmt (str : List Nat) : Bool :=
  match str.findIdx? (fun c => c == 60),
        ((List.range str.length).filter (fun k => str.getD k 0 == 62)).getLast? with
  | some i, some j =>
    if i + 1 < j then
      let tok := ((str.dropWhile isspaceB).takeWhile (fun c => !isspaceB c)).take 4
      tok.map ucByte == strBytes "TO:<" && str.getD (str.length - 1) 0 == 62
    else false
  | _, _ => false

/-- `retrieveEmail`: the bytes strictly between the first `<` and the last
`>` (the C code writes a NUL over the `>` and returns the pointer after
`<`). -/
def retrieveEmail (str : List Nat) : List Nat :=
  match str.findIdx? (fun c => c == 60),
        ((List.range str.length).filter (fun k => str.getD k 0 == 62)).getLast? with
  | some i, some j => (str.drop (i + 1)).take (j - (i + 1))
  | _, _ => []

/-- `strstr(reply, ".\r\n") == reply`: the C-string view starts with
`.` CR LF. -/
def cstrStartsDot (l : List Nat) : Bool := (cstr l).take 3 == [46, 13, 10]

/-- The state variables of smtpd.c's `handle_client`.  `toEmail` stands for
the `toEmail[30][...]` array together with `rcpt_count`: exactly the entries
below `rcpt_count` (the only ones the code ever reads) are kept, so its
length is `rcpt_count`.  The C code performs no bound check before
`toEmail[rcpt_count++]`, so the model list grows without bound as well. -/
structure SmtpState where
  received_helo : Bool
  received_mail : Bool
  received_rcpt : Bool
  received_data : Bool
  fromEmail : List Nat
  toEmail : List (List Nat)
  data : List Nat
deriving DecidableEq

/-- Session start: all flags 0. -/
def smtpInit : SmtpState :=
  { received_helo := false, received_mail := false, received_rcpt := false,
    received_data := false, fromEmail := [], toEmail := [], data := [] }

/-- External collaborators of the SMTP session: `is_valid_user(email,
NULL)`, and the success of `saveEmail(fromEmail, toEmail[i], data)`
(false stands for the -1 return of a failed `mkstemp`). -/
structure SmtpEnv where
  validUser : List Nat → Bool
  deliver : List Nat → List Nat → List Nat → Bool

/-- One call `saveEmail(fromEmail, toEmail[i], data)` made during
end-of-data processing. -/
structure SaveCall where
  sender : List Nat
  recipient : List Nat
  body : List Nat
deriving DecidableEq

/-- Result of processing one SMTP line: continue (with replies sent and
mail-store commits performed), quit after QUIT's `221`, or crash — the
undefined behaviour of `sscanf(reply, "%s", command)` overflowing
`char command[41]` on a first token longer than 40 bytes. -/
inductive SmtpOutcome where
  | cont (st : SmtpState) (sends : List SmtpReply) (saves : List SaveCall)
  | quit (sends : List SmtpReply)
  | crash
deriving DecidableEq

/-- One iteration of smtpd.c's `handle_client` loop on a received line. -/
def smtpStep (env : SmtpEnv) (st : SmtpState) (line : List Nat) : SmtpOutcome :=
  let size := line.length
  let command := firstToken line
  -- sscanf(reply, "%s", command) runs in every state, DATA_MODE included,
  -- before the CRLF checks; a first token longer than 40 bytes overflows
  -- char command[41] — undefined behaviour, modelled as a crash.
  if 40 < command.length then .crash
  else if checkCRLF line || (st.received_data && checkCRLFSimple line) then
    if st.received_data then
      -- STATE: DATA received
      if cstrStartsDot line && size == 3 then
        let results := st.toEmail.map (fun r => env.deliver st.fromEmail r st.data)
        let success := results.foldl (fun _ r => r) true
        let saves := st.toEmail.map (fun r =>
          { sender := st.fromEmail, recipient := r, body := st.data : SaveCall })
        let st2 := { st with received_data := false, toEmail := [], data := [] }
        if success then .cont st2 [.r250ok] saves else .cont st2 [.r451] saves
      else
        -- strcat(data, reply): append the line's C-string view
        .cont { st with data := st.data ++ cstr line } [] []
    -- commands accepted at every state except DATA
    else if tokenIs command "NOOP" then
      .cont st [.r250ok] []
    else if tokenIs command "QUIT" then
      .quit [.r221]
    else if tokenIs command "EHLO" || tokenIs command "RSET" || tokenIs command "VRFY" ||
            tokenIs command "EXPN" || tokenIs command "HELP" then
      .cont st [.r502] []
    else if st.received_mail then
      -- STATE: MAIL received
      if tokenIs command "RCPT" then
        match retrieveArgs line with
        | some args =>
          if checkRcptFmt args then
            let email := retrieveEmail args
            if env.validUser email then
              .cont { st with toEmail := st.toEmail ++ [email],
                              received_rcpt := true, received_mail := false } [.r250ok] []
            else .cont st [.r555] []
          else .cont st [.r501] []
        | none => .cont st [.r501] []
      else if tokenIs command "HELO" || tokenIs command "MAIL" || tokenIs command "DATA" then
        .cont st [.r503] []
      else .cont st [.r500] []
    else if st.received_rcpt then
      -- STATE: RCPT received
      if tokenIs command "DATA" && size == 6 then
        .cont { st with received_data := true, received_rcpt := false, data := [] } [.r354] []
      else if tokenIs command "RCPT" then
        match retrieveArgs line with
        | some args =>
          if checkRcptFmt args then
            let email := retrieveEmail args
            if env.validUser email then
              .cont { st with toEmail := st.toEmail ++ [email] } [.r250ok] []
            else .cont st [.r555] []
          else .cont st [.r501] []
        | none => .cont st [.r501] []
      else if tokenIs command "HELO" || tokenIs command "MAIL" then
        .cont st [.r503] []
      else .cont st [.r500] []
    else if st.received_helo then
      -- STATE: HELO received
      if tokenIs command "MAIL" then
        match retrieveArgs line with
        | some args =>
          if checkMailFmt args then
            .cont { st with received_mail := true, fromEmail := retrieveEmail args } [.r250ok] []
          else .cont st [.r501] []
        | none => .cont st [.r501] []
      else if tokenIs command "HELO" || tokenIs command "RCPT" || tokenIs command "DATA" then
        .cont st [.r503] []
      else .cont st [.r500] []
    else
      -- STATE: initial
      if tokenIs command "HELO" then
        .cont { st with received_helo := true } [.r250host] []
      else if tokenIs command "MAIL" || tokenIs command "RCPT" || tokenIs command "DATA" then
        .cont st [.r503] []
      else .cont st [.r500] []
  else
    -- line does not end with CRLF (also catches over-long lines)
    .cont st [.r500] []

/-- The (effective state, command) pairs for which spec section 4.3 mandates
`503 Bad sequence of commands`: MAIL/RCPT/DATA in the initial (GREETED)
state, HELO/RCPT/DATA in the HELO state, HELO/MAIL/DATA in the MAIL state,
HELO/MAIL in the RCPT state; the effective state follows the dispatch
priority of `handle_client` (`data`, then `mail`, then `rcpt`, then `helo`,
else initial). -/
def mandates503 (st : SmtpState) (cmd : List Nat) : Bool :=
  if st.received_data then false
  else if st.received_mail then
    tokenIs cmd "HELO" || tokenIs cmd "MAIL" || tokenIs cmd "DATA"
  else if st.received_rcpt then
    tokenIs cmd "HELO" || tokenIs cmd "MAIL"
  else if st.received_helo then
    tokenIs cmd "HELO" || tokenIs cmd "RCPT" || tokenIs cmd "DATA"
  else
    tokenIs cmd "MAIL" || tokenIs cmd "RCPT" || tokenIs cmd "DATA"

/-- Loop of a whole-session run; a QUIT (the `break`) or a crash stops the
run, leaving the state as it stood. -/
def smtpRunAux (env : SmtpEnv) : List (List Nat) → SmtpState → SmtpState
  | [], st => st
  | l :: rest, st =>
    match smtpStep env st l with
    | .cont s2 _ _ => smtpRunAux env rest s2
    | .quit _ => st
    | .crash => st

/-- A whole-session run: drive `smtpStep` over a list of lines. -/
def smtpRun (env : SmtpEnv) (st : SmtpState) (lines : List (List Nat)) : SmtpState :=
  smtpRunAux env lines st

/-- A small concrete user store used to exercise the POP3 model. -/
def popDemoEnv : PopEnv :=
  { validUser := fun u => u == strBytes "alice"
    checkPass := fun u p => u == strBytes "alice" && p == strBytes "pw"
    loadMail := fun _ => [{ size := 100, deleted := false, content := strBytes "hi\n" }] }

/-- A concrete TRANSACTION-state session used in witnesses. -/
def popTransSt : PopState :=
  { authorization := false, transaction := true, accepted_user := true,
    username := strBytes "alice",
    mailList := [{ size := 100, deleted := false, content := strBytes "hi\n" }],
    mailCount := 1 }

/-- A small concrete user store used to exercise the SMTP model. -/
def smtpDemoEnv : SmtpEnv :=
  { validUser := fun u => u == strBytes "bob@host"
    deliver := fun _ _ _ => true }

/-- Demo session state after `HELO client`. -/
def smtpStHelo : SmtpState :=
  { received_helo := true, received_mail := false, received_rcpt := false,
    received_data := false, fromEmail := [], toEmail := [], data := [] }

/-- Demo session state after `MAIL FROM:<a@x>`. -/
def smtpStMail : SmtpState :=
  { received_helo := true, received_mail := true, received_rcpt := false,
    received_data := false, fromEmail := strBytes "a@x", toEmail := [], data := [] }

/-- Demo session state after `RCPT TO:<bob@host>`. -/
def smtpStRcpt : SmtpState :=
  { received_helo := true, received_mail := false, received_rcpt := true,
    received_data := false, fromEmail := strBytes "a@x",
    toEmail := [strBytes "bob@host"], data := [] }

/-- Demo session state after `DATA`. -/
def smtpStData : SmtpState :=
  { received_helo := true, received_mail := false, received_rcpt := false,
    received_data := true, fromEmail := strBytes "a@x",
    toEmail := [strBytes "bob@host"], data := [] }

/-- Demo session state after one body line. -/
def smtpStBody : SmtpState :=
  { received_helo := true, received_mail := false, received_rcpt := false,
    received_data := true, fromEmail := strBytes "a@x",
    toEmail := [strBytes "bob@host"], data := strBytes "body" ++ [13, 10] }

/-- Demo session state after end-of-data: back to the HELO state with the
transaction fields cleared. -/
def smtpStDone : SmtpState :=
  { received_helo := true, received_mail := false, received_rcpt := false,
    received_data := false, fromEmail := strBytes "a@x", toEmail := [], data := [] }

/-! ## Concrete stores, states and traces used in witnesses and
counterexamples -/

/-- Delivery environment in which recipient `u1` fails and others succeed. -/
def c1Env : SmtpEnv :=
  { validUser := fun _ => true
    deliver := fun _ r _ => !(r == strBytes "u1") }

/-- DATA_MODE state with two pending recipients `u1`, `u2`. -/
def c1St : SmtpState :=
  { received_helo := true, received_mail := false, received_rcpt := false,
    received_data := true, fromEmail := strBytes "a@x",
    toEmail := [strBytes "u1", strBytes "u2"], data := strBytes "hi" ++ [13, 10] }

/-- Delivery environment in which every commit fails. -/
def c1WEnv : SmtpEnv :=
  { validUser := fun _ => true
    deliver := fun _ _ _ => false }

/-- DATA_MODE state with a single pending recipient `u1`. -/
def c1WSt : SmtpState :=
  { received_helo := true, received_mail := false, received_rcpt := false,
    received_data := true, fromEmail := strBytes "a@x",
    toEmail := [strBytes "u1"], data := [] }

/-- AUTHORIZATION state after a successful `USER alice`. -/
def c3St : PopState :=
  { authorization := true, transaction := false, accepted_user := true,
    username := strBytes "alice", mailList := [], mailCount := 0 }

/-- State after the failed `USER bob` that follows: the flag is still set. -/
def c3St2 : PopState :=
  { authorization := true, transaction := false, accepted_user := true,
    username := strBytes "bob", mailList := [], mailCount := 0 }

/-- Store accepting every recipient and every delivery. -/
def c4Env : SmtpEnv :=
  { validUser := fun _ => true
    deliver := fun _ _ _ => true }

/-- An SMTP session script: HELO, MAIL, then `n` valid RCPT commands. -/
def c4Lines (n : Nat) : List (List Nat) :=
  [strBytes "HELO client" ++ [13, 10], strBytes "MAIL FROM:<a@x>" ++ [13, 10]] ++
    List.replicate n (strBytes "RCPT TO:<bob@host>" ++ [13, 10])

/-- Store for the DELE/RSET scenario: user `alice` with two mail items of
sizes 10 and 20 octets. -/
def c6Env : PopEnv :=
  { validUser := fun u => u == strBytes "alice"
    checkPass := fun u p => u == strBytes "alice" && p == strBytes "pw"
    loadMail := fun _ =>
      [{ size := 10, deleted := false, content := [] },
       { size := 20, deleted := false, content := [] }] }

/-- After `USER alice`. -/
def c6StAuth : PopState :=
  { authorization := true, transaction := false, accepted_user := true,
    username := strBytes "alice", mailList := [], mailCount := 0 }

/-- After `PASS pw`: TRANSACTION with both items present. -/
def c6StTr : PopState :=
  { authorization := false, transaction := true, accepted_user := true,
    username := strBytes "alice",
    mailList :=
      [{ size := 10, deleted := false, content := [] },
       { size := 20, deleted := false, content := [] }],
    mailCount := 2 }

/-- After `DELE 1`: item 1 marked deleted. -/
def c6StPre : PopState :=
  { authorization := false, transaction := true, accepted_user := true,
    username := strBytes "alice",
    mailList :=
      [{ size := 10, deleted := true, content := [] },
       { size := 20, deleted := false, content := [] }],
    mailCount := 2 }

/-- After `DELE 2`: both items marked deleted. -/
def c6StPost : PopState :=
  { authorization := false, transaction := true, accepted_user := true,
    username := strBytes "alice",
    mailList :=
      [{ size := 10, deleted := true, content := [] },
       { size := 20, deleted := true, content := [] }],
    mailCount := 2 }

/-- After `RSET`: all delete marks cleared. -/
def c6StReset : PopState :=
  { authorization := false, transaction := true, accepted_user := true,
    username := strBytes "alice",
    mailList :=
      [{ size := 10, deleted := false, content := [] },
       { size := 20, deleted := false, content := [] }],
    mailCount := 2 }

/-- TRANSACTION state of `popTransSt` after `DELE 1`. -/
def c6WStDeleted : PopState :=
  { authorization := false, transaction := true, accepted_user := true,
    username := strBytes "alice",
    mailList := [{ size := 100, deleted := true, content := strBytes "hi\n" }],
    mailCount := 1 }

/-! ## Socket line buffer (socketbuffer.c `sb_read_line`) -/

/-- One result of a `recv` call on the connection: a nonempty chunk of
bytes, an orderly close (`recv` returning 0), or a read error (`recv`
returning a negative value). -/
inductive NetEvent where
  | data (bytes : List Nat)
  | closedEv
  | errEv
deriving DecidableEq

/-- Return status of `sb_read_line`: a line of bytes (the positive return
is its length), 0 for orderly close with an empty buffer, -1 for a read
error, or blocked forever waiting for input (no further network events). -/
inductive SbResult where
  | line (bytes : List Nat)
  | closedRes
  | errRes
  | blocked
deriving DecidableEq

/-- The `int` value `sb_read_line` returns for each result. -/
def sbRet : SbResult → Int
  | .line l => l.length
  | .closedRes => 0
  | .errRes => -1
  | .blocked => 0

/-- Contents of the caller's `out` array after the call: the line bytes
followed by the terminating NUL written by `out[rv] = 0` (on a read error
the code returns before touching `out`). -/
def sbOut : SbResult → List Nat
  | .line l => l ++ [0]
  | .closedRes => [0]
  | .errRes => []
  | .blocked => []

/-- `sb_read_line(sb, out)` over a buffer holding `buf` unread bytes and a
pending list of network events.  The C loop searches the buffered bytes for
an LF; while none is present and the buffer is not full it calls `recv`
into the free tail.  A found LF ends the line (inclusively); a full buffer
or an orderly close flushes the whole buffer as the line.  When an arriving
chunk is larger than the free tail, `recv` consumes only the free tail's
worth and the rest stays pending; the buffer is then full, so the next loop
iteration either finds an LF among the buffered bytes or flushes the full
buffer — that iteration is inlined in the last branch.  Returns the result
together with the remaining buffered bytes and remaining events. -/
def sbLoop (maxB : Nat) : List NetEvent → List Nat → SbResult × List Nat × List NetEvent
  | stream, buf =>
    if buf.any (fun c => c == 10) then
      let i := buf.findIdx (fun c => c == 10)
      (.line (buf.take (i + 1)), buf.drop (i + 1), stream)
    else if buf.length < maxB then
      match stream with
      | [] => (.blocked, buf, [])
      | .errEv :: rest => (.errRes, buf, rest)
      | .closedEv :: rest =>
        if buf.isEmpty then (.closedRes, buf, .closedEv :: rest)
        else (.line buf, [], .closedEv :: rest)
      | .data bs :: rest =>
        if bs.isEmpty then
          -- recv returning 0: same as an orderly close
          if buf.isEmpty then (.closedRes, buf, rest) else (.line buf, [], rest)
        else if bs.length ≤ maxB - buf.length then
          sbLoop maxB rest (buf ++ bs)
        else
          let buf2 := buf ++ bs.take (maxB - buf.length)
          let rest2 := NetEvent.data (bs.drop (maxB - buf.length)) :: rest
          if buf2.any (fun c => c == 10) then
            let i := buf2.findIdx (fun c => c == 10)
            (.line (buf2.take (i + 1)), buf2.drop (i + 1), rest2)
          else
            (.line buf2, [], rest2)
    else
      (.line buf, [], stream)

/-- `sb_read_line` with the buffer first, matching the C reading order. -/
def sb_read_line (maxB : Nat) (buf : List Nat) (stream : List NetEvent) :
    SbResult × List Nat × List NetEvent :=
  sbLoop maxB stream buf

section HelperSanity

example : checkCRLF (strBytes "USER alice" ++ [13, 10]) = true := by decide
example : checkCRLF [65, 13, 10] = false := by decide
example : checkCRLF [13, 10] = false := by decide
example : checkCRLF (strBytes "USER alice " ++ [13, 10]) = false := by decide
example : checkCRLFSimple [13, 10] = true := by decide
example : firstToken (strBytes "user alice" ++ [13, 10]) = strBytes "user" := by decide
example : tokenIs (strBytes "user") "USER" = true := by decide
example : retrieveArgs (strBytes "USER alice" ++ [13, 10]) = some (strBytes "alice") := by decide
example : retrieveArgs (strBytes "USER" ++ [13, 10]) = none := by decide
example : parseIndex (strBytes "1") = 1 := by decide
example : uintSub1 0 = 2 ^ 32 - 1 := by decide
example : toCInt (2 ^ 31) = -(2 ^ 31) := by decide

end HelperSanity

section PopSanity



example :
    popStep popDemoEnv popInit (strBytes "USER alice" ++ [13, 10]) =
      .cont { popInit with username := strBytes "alice", accepted_user := true }
        [sendPositive] := by decide

example :
    popStep popDemoEnv
      { popInit with username := strBytes "alice", accepted_user := true }
      (strBytes "PASS pw" ++ [13, 10]) =
      .cont { authorization := false, transaction := true, accepted_user := true,
              username := strBytes "alice",
              mailList := [{ size := 100, deleted := false, content := strBytes "hi\n" }],
              mailCount := 1 } [sendPositive] := by decide

example :
    popStep popDemoEnv
      { authorization := false, transaction := true, accepted_user := true,
        username := strBytes "alice",
        mailList := [{ size := 100, deleted := false, content := strBytes "hi\n" }],
        mailCount := 1 }
      (strBytes "STAT" ++ [13, 10]) =
      .cont { authorization := false, transaction := true, accepted_user := true,
              username := strBytes "alice",
              mailList := [{ size := 100, deleted := false, content := strBytes "hi\n" }],
              mailCount := 1 } [.okCount 1 100] := by decide

example :
    popStep popDemoEnv
      { authorization := false, transaction := true, accepted_user := true,
        username := strBytes "alice",
        mailList := [{ size := 100, deleted := false, content := strBytes "hi\n" }],
        mailCount := 1 }
      (strBytes "LIST" ++ [13, 10]) =
      .cont { authorization := false, transaction := true, accepted_user := true,
              username := strBytes "alice",
              mailList := [{ size := 100, deleted := false, content := strBytes "hi\n" }],
              mailCount := 1 } [.okCount 1 100, .countLine 1 100, .dot] := by decide

example :
    popStep popDemoEnv
      { authorization := false, transaction := true, accepted_user := true,
        username := strBytes "alice",
        mailList := [{ size := 100, deleted := false, content := strBytes "hi\n" }],
        mailCount := 1 }
      (strBytes "DELE 1" ++ [13, 10]) =
      .cont { authorization := false, transaction := true, accepted_user := true,
              username := strBytes "alice",
              mailList := [{ size := 100, deleted := true, content := strBytes "hi\n" }],
              mailCount := 1 } [sendPositive] := by decide

example :
    popStep popDemoEnv
      { authorization := false, transaction := true, accepted_user := true,
        username := strBytes "alice",
        mailList := [{ size := 100, deleted := true, content := strBytes "hi\n" }],
        mailCount := 1 }
      (strBytes "STAT" ++ [13, 10]) =
      .cont { authorization := false, transaction := true, accepted_user := true,
              username := strBytes "alice",
              mailList := [{ size := 100, deleted := true, content := strBytes "hi\n" }],
              mailCount := 1 } [.okCount 0 0] := by decide

example :
    popStep popDemoEnv popInit (strBytes "PASS pw" ++ [13, 10]) =
      .cont popInit [sendNegative] := by decide

example :
    popStep popDemoEnv popInit (strBytes "QUIT" ++ [13, 10]) = .quit [sendPositive] := by decide

end PopSanity

section SmtpSanity







example :
    smtpStep smtpDemoEnv smtpInit (strBytes "HELO client" ++ [13, 10]) =
      .cont smtpStHelo [.r250host] [] := by decide

example :
    smtpStep smtpDemoEnv smtpInit (strBytes "MAIL FROM:<a@x>" ++ [13, 10]) =
      .cont smtpInit [.r503] [] := by decide

example :
    smtpStep smtpDemoEnv smtpStHelo (strBytes "MAIL FROM:<a@x>" ++ [13, 10]) =
      .cont smtpStMail [.r250ok] [] := by decide

example :
    smtpStep smtpDemoEnv smtpStMail (strBytes "RCPT TO:<bob@host>" ++ [13, 10]) =
      .cont smtpStRcpt [.r250ok] [] := by decide

example :
    smtpStep smtpDemoEnv smtpStMail (strBytes "RCPT TO:<nobody@host>" ++ [13, 10]) =
      .cont smtpStMail [.r555] [] := by decide

example :
    smtpStep smtpDemoEnv smtpStRcpt (strBytes "DATA" ++ [13, 10]) =
      .cont smtpStData [.r354] [] := by decide

example :
    smtpStep smtpDemoEnv smtpStData (strBytes "body" ++ [13, 10]) =
      .cont smtpStBody [] [] := by decide

example :
    smtpStep smtpDemoEnv smtpStBody [46, 13, 10] =
      .cont smtpStDone [.r250ok]
        [{ sender := strBytes "a@x", recipient := strBytes "bob@host",
           body := strBytes "body" ++ [13, 10] }] := by decide

example :
    smtpStep smtpDemoEnv smtpInit (strBytes "QUIT" ++ [13, 10]) = .quit [.r221] := by decide

example :
    smtpStep smtpDemoEnv smtpInit (strBytes "EHLO x" ++ [13, 10]) =
      .cont smtpInit [.r502] [] := by decide

end SmtpSanity

section SbSanity

example :
    sb_read_line 1024 [] [.data (strBytes "USER alice" ++ [13, 10])] =
      (.line (strBytes "USER alice" ++ [13, 10]), [], []) := by decide

example :
    sb_read_line 1024 [] [.data (strBytes "AB" ++ [13, 10] ++ strBytes "CD" ++ [13, 10])] =
      (.line (strBytes "AB" ++ [13, 10]), strBytes "CD" ++ [13, 10], []) := by decide

example :
    sb_read_line 1024 (strBytes "CD" ++ [13, 10]) [] =
      (.line (strBytes "CD" ++ [13, 10]), [], []) := by decide

example :
    sb_read_line 4 [] [.data (strBytes "ABCDEFG" ++ [13, 10])] =
      (.line (strBytes "ABCD"), [], [.data (strBytes "EFG" ++ [13, 10])]) := by decide

example : sb_read_line 1024 [] [.closedEv] = (.closedRes, [], [.closedEv]) := by decide

example :
    sb_read_line 1024 (strBytes "AB") [.closedEv] =
      (.line (strBytes "AB"), [], [.closedEv]) := by decide

example : sb_read_line 1024 (strBytes "AB") [.errEv] = (.errRes, strBytes "AB", []) := by decide

end SbSanity

/-! ## Helper lemmas -/

theorem tokenIs_map (l : List Nat) (kw : String) (h : tokenIs l kw = true) :
    l.map ucByte = strBytes kw := by
  simpa [tokenIs] using h

theorem tokenIs_ne (l : List Nat) (a b : String) (h : tokenIs l a = true)
    (hne : (strBytes a == strBytes b) = false) : tokenIs l b = false := by
  have hm := tokenIs_map l a h
  unfold tokenIs
  rw [hm]
  exact hne

theorem tokenIs_bounded (l : List Nat) (kw : String) (h : tokenIs l kw = true) :
    l.length = (strBytes kw).length := by
  have hm := tokenIs_map l kw h
  calc l.length = (l.map ucByte).length := (List.length_map _ _).symm
    _ = (strBytes kw).length := by rw [hm]

theorem checkCRLF_iff (l : List Nat) :
    checkCRLF l = true ↔
      4 ≤ l.length ∧ l.getD (l.length - 2) 0 = 13 ∧ l.getD (l.length - 1) 0 = 10 ∧
        isspaceB (l.getD (l.length - 3) 0) = false := by
  unfold checkCRLF
  constructor
  · intro h
    by_cases hc1 : (l.length == 2 && (l.getD (l.length - 2) 0 == 13) &&
        (l.getD (l.length - 1) 0 == 10)) = true
    · rw [if_pos hc1] at h
      exact absurd h (by simp)
    · rw [if_neg hc1] at h
      by_cases hc2 : (decide (l.length > 3) && (l.getD (l.length - 2) 0 == 13) &&
          (l.getD (l.length - 1) 0 == 10)) = true
      · rw [if_pos hc2] at h
        have h3 := hc2
        simp only [Bool.and_eq_true, decide_eq_true_eq, beq_iff_eq] at h3
        refine ⟨by omega, h3.1.2, h3.2, ?_⟩
        cases hval : isspaceB (l.getD (l.length - 3) 0)
        · rfl
        · rw [hval] at h
          exact absurd h (by decide)
      · rw [if_neg hc2] at h
        exact absurd h (by simp)
  · rintro ⟨h4, h13, h10, hws⟩
    have hb2 : (l.length == 2) = false := by
      simp only [beq_eq_false_iff_ne, ne_eq]
      omega
    have hb13 : (l.getD (l.length - 2) 0 == 13) = true := by rw [h13]; rfl
    have hb10 : (l.getD (l.length - 1) 0 == 10) = true := by rw [h10]; rfl
    have hd3 : (decide (l.length > 3)) = true := decide_eq_true (by omega)
    have hc1 : (l.length == 2 && (l.getD (l.length - 2) 0 == 13) &&
        (l.getD (l.length - 1) 0 == 10)) = false := by
      rw [hb2]
      simp only [Bool.false_and]
    have hc2 : (decide (l.length > 3) && (l.getD (l.length - 2) 0 == 13) &&
        (l.getD (l.length - 1) 0 == 10)) = true := by
      rw [hd3, hb13, hb10]
      rfl
    rw [if_neg (by rw [hc1]; exact Bool.false_ne_true), if_pos hc2, hws]
    rfl

theorem getD_last_ne_ten (l : List Nat) (h : (10 : Nat) ∉ l) :
    l.getD (l.length - 1) 0 ≠ 10 := by
  cases l with
  | nil => simp [List.getD_nil]
  | cons a rest =>
    have hlt : (a :: rest).length - 1 < (a :: rest).length := by simp
    rw [List.getD_eq_getElem _ _ hlt]
    intro hten
    exact h (hten ▸ List.getElem_mem hlt)

theorem noLF_checkCRLF (l : List Nat) (h : (10 : Nat) ∉ l) :
    checkCRLF l = false ∧ checkCRLFSimple l = false := by
  have h10 : (l.getD (l.length - 1) 0 == 10) = false := by
    simpa using getD_last_ne_ten l h
  constructor
  · unfold checkCRLF
    rw [h10]
    simp only [Bool.and_false, Bool.false_eq_true, if_false]
  · unfold checkCRLFSimple
    rw [h10]
    simp only [Bool.and_false]

theorem foldl_keep_last (l : List Bool) (b : Bool) :
    l.foldl (fun _ r => r) b = l.getLast?.getD b := by
  induction l generalizing b with
  | nil => rfl
  | cons a rest ih =>
    cases rest with
    | nil => simp [List.foldl]
    | cons c cs =>
      rw [List.foldl_cons, ih a, List.getLast?_cons_cons]
      have hs : ((c :: cs).getLast?).isSome := by
        rw [List.getLast?_isSome]
        simp
      obtain ⟨x, hx⟩ := Option.isSome_iff_exists.mp hs
      rw [hx]
      rfl

theorem reset_mark (l : List MailItem) (i : Nat) :
    reset_mail_list_deleted_flag (mark_mail_item_deleted l i) =
      reset_mail_list_deleted_flag l := by
  induction l generalizing i with
  | nil => rfl
  | cons m rest ih =>
    cases i with
    | zero => simp [mark_mail_item_deleted, reset_mail_list_deleted_flag]
    | succ j =>
      simp only [mark_mail_item_deleted, reset_mail_list_deleted_flag, List.map_cons]
      have := ih j
      simp only [reset_mail_list_deleted_flag] at this
      rw [this]

theorem reset_of_all_false (l : List MailItem) (h : ∀ m ∈ l, m.deleted = false) :
    reset_mail_list_deleted_flag l = l := by
  induction l with
  | nil => rfl
  | cons m rest ih =>
    have hm : m.deleted = false := h m (by simp)
    have hr := ih (fun x hx => h x (by simp [hx]))
    simp only [reset_mail_list_deleted_flag, List.map_cons] at *
    rw [hr]
    congr 1
    cases m
    simp_all

theorem toCInt_eq_iff (n : Nat) : toCInt n = (n : Int) ↔ n < 2 ^ 31 := by
  unfold toCInt
  split <;> omega

theorem any10_eq_false (l : List Nat) (h : (10 : Nat) ∉ l) :
    l.any (fun c => c == 10) = false := by
  cases hany : l.any (fun c => c == 10)
  · rfl
  · exfalso
    obtain ⟨x, hxl, hx10⟩ := List.any_eq_true.mp hany
    have hx : x = 10 := by simpa using hx10
    exact h (hx ▸ hxl)

theorem sbLoop_fill (chunks : List (List Nat)) :
    ∀ (maxB : Nat) (buf : List Nat) (rest : List NetEvent),
      buf.length ≤ maxB → (∀ c ∈ chunks, c ≠ []) →
      (10 : Nat) ∉ buf ++ chunks.flatten → maxB ≤ (buf ++ chunks.flatten).length →
      (sbLoop maxB (chunks.map NetEvent.data ++ rest) buf).1 =
        .line ((buf ++ chunks.flatten).take maxB) := by
  induction chunks with
  | nil =>
    intro maxB buf rest hle hne hnl htot
    have hbuf : buf.length = maxB := le_antisymm hle (by simpa using htot)
    have hany : buf.any (fun c => c == 10) = false :=
      any10_eq_false _ (fun hm => hnl (by simpa using hm))
    rw [sbLoop.eq_def]
    dsimp only
    rw [if_neg (by rw [hany]; exact Bool.false_ne_true),
        if_neg (by omega : ¬buf.length < maxB)]
    simp only [List.flatten_nil, List.append_nil]
    rw [← hbuf, List.take_length]
  | cons bs cs ih =>
    intro maxB buf rest hle hne hnl htot
    have hbs : bs ≠ [] := hne bs (by simp)
    have hnlbuf : (10 : Nat) ∉ buf := fun hm => hnl (by simp [hm])
    have hany : buf.any (fun c => c == 10) = false := any10_eq_false _ hnlbuf
    by_cases hfull : buf.length < maxB
    case neg =>
      have hbuf : buf.length = maxB := le_antisymm hle (by omega)
      rw [sbLoop.eq_def]
      dsimp only
      rw [if_neg (by rw [hany]; exact Bool.false_ne_true), if_neg hfull]
      have htk : (buf ++ (bs :: cs).flatten).take maxB = buf := by
        rw [← hbuf, List.take_left]
      rw [htk]
    case pos =>
      rw [List.map_cons, List.cons_append, sbLoop.eq_def]
      dsimp only
      rw [if_neg (by rw [hany]; exact Bool.false_ne_true), if_pos hfull]
      simp only [List.isEmpty_eq_true]
      rw [if_neg hbs]
      by_cases hsz : bs.length ≤ maxB - buf.length
      · rw [if_pos hsz]
        have h1 : (buf ++ bs).length ≤ maxB := by
          simp only [List.length_append]
          omega
        have h2 : (10 : Nat) ∉ (buf ++ bs) ++ cs.flatten := by
          simpa only [List.flatten_cons, List.append_assoc] using hnl
        have h3 : maxB ≤ ((buf ++ bs) ++ cs.flatten).length := by
          simp only [List.flatten_cons, List.length_append] at htot ⊢
          omega
        have h4 := ih maxB (buf ++ bs) rest h1 (fun c hc => hne c (by simp [hc])) h2 h3
        rw [h4, List.append_assoc, List.flatten_cons]
      · rw [if_neg hsz]
        have hk : maxB - buf.length ≤ bs.length := by omega
        have hsub : (10 : Nat) ∉ buf ++ bs.take (maxB - buf.length) := by
          intro hm
          rcases List.mem_append.mp hm with hb | hb
          · exact hnlbuf hb
          · exact hnl (by simp [List.take_subset _ _ hb])
        have hany2 : (buf ++ bs.take (maxB - buf.length)).any (fun c => c == 10) = false :=
          any10_eq_false _ hsub
        rw [if_neg (by rw [hany2]; exact Bool.false_ne_true)]
        have hgoal : buf ++ bs.take (maxB - buf.length) =
            (buf ++ (bs :: cs).flatten).take maxB := by
          rw [List.take_append_eq_append_take,
              List.take_of_length_le (by omega : buf.length ≤ maxB)]
          congr 1
          rw [List.flatten_cons, List.take_append_of_le_length hk]
        rw [hgoal]

theorem sbLoop_line_length (stream : List NetEvent) :
    ∀ (maxB : Nat) (buf l : List Nat), buf.length ≤ maxB →
      (sbLoop maxB stream buf).1 = .line l → l.length ≤ maxB := by
  induction stream with
  | nil =>
    intro maxB buf l hle h
    by_cases hany : (buf.any fun c => c == 10) = true
    · have he : (sbLoop maxB [] buf).1 =
          SbResult.line (buf.take (buf.findIdx (fun c => c == 10) + 1)) := by
        rw [sbLoop.eq_def]
        dsimp only
        rw [if_pos hany]
      rw [he] at h
      injection h with h2
      rw [← h2, List.length_take]
      omega
    · by_cases hlt : buf.length < maxB
      · have he : (sbLoop maxB [] buf).1 = SbResult.blocked := by
          rw [sbLoop.eq_def]
          dsimp only
          rw [if_neg hany, if_pos hlt]
        rw [he] at h
        exact SbResult.noConfusion h
      · have he : (sbLoop maxB [] buf).1 = SbResult.line buf := by
          rw [sbLoop.eq_def]
          dsimp only
          rw [if_neg hany, if_neg hlt]
        rw [he] at h
        injection h with h2
        rw [← h2]
        exact hle
  | cons ev rest ih =>
    intro maxB buf l hle h
    by_cases hany : (buf.any fun c => c == 10) = true
    · have he : (sbLoop maxB (ev :: rest) buf).1 =
          SbResult.line (buf.take (buf.findIdx (fun c => c == 10) + 1)) := by
        rw [sbLoop.eq_def]
        dsimp only
        rw [if_pos hany]
      rw [he] at h
      injection h with h2
      rw [← h2, List.length_take]
      omega
    · by_cases hlt : buf.length < maxB
      · cases ev with
        | errEv =>
          have he : (sbLoop maxB (NetEvent.errEv :: rest) buf).1 = SbResult.errRes := by
            rw [sbLoop.eq_def]
            dsimp only
            rw [if_neg hany, if_pos hlt]
          rw [he] at h
          exact SbResult.noConfusion h
        | closedEv =>
          by_cases hemp : buf.isEmpty = true
          · have he : (sbLoop maxB (NetEvent.closedEv :: rest) buf).1 = SbResult.closedRes := by
              rw [sbLoop.eq_def]
              dsimp only
              rw [if_neg hany, if_pos hlt, if_pos hemp]
            rw [he] at h
            exact SbResult.noConfusion h
          · have he : (sbLoop maxB (NetEvent.closedEv :: rest) buf).1 = SbResult.line buf := by
              rw [sbLoop.eq_def]
              dsimp only
              rw [if_neg hany, if_pos hlt, if_neg hemp]
            rw [he] at h
            injection h with h2
            rw [← h2]
            exact hle
        | data bs =>
          by_cases hemp : bs.isEmpty = true
          · by_cases hbe : buf.isEmpty = true
            · have he : (sbLoop maxB (NetEvent.data bs :: rest) buf).1 = SbResult.closedRes := by
                rw [sbLoop.eq_def]
                dsimp only
                rw [if_neg hany, if_pos hlt, if_pos hemp, if_pos hbe]
              rw [he] at h
              exact SbResult.noConfusion h
            · have he : (sbLoop maxB (NetEvent.data bs :: rest) buf).1 = SbResult.line buf := by
                rw [sbLoop.eq_def]
                dsimp only
                rw [if_neg hany, if_pos hlt, if_pos hemp, if_neg hbe]
              rw [he] at h
              injection h with h2
              rw [← h2]
              exact hle
          · by_cases hsz : bs.length ≤ maxB - buf.length
            · have he : sbLoop maxB (NetEvent.data bs :: rest) buf =
                  sbLoop maxB rest (buf ++ bs) := by
                rw [sbLoop.eq_def]
                dsimp only
                rw [if_neg hany, if_pos hlt, if_neg hemp, if_pos hsz]
              rw [he] at h
              refine ih maxB (buf ++ bs) l ?_ h
              simp only [List.length_append]
              omega
            · by_cases hany2 :
                  ((buf ++ bs.take (maxB - buf.length)).any fun c => c == 10) = true
              · have he : (sbLoop maxB (NetEvent.data bs :: rest) buf).1 =
                    SbResult.line ((buf ++ bs.take (maxB - buf.length)).take
                      ((buf ++ bs.take (maxB - buf.length)).findIdx (fun c => c == 10) + 1)) := by
                  rw [sbLoop.eq_def]
                  dsimp only
                  rw [if_neg hany, if_pos hlt, if_neg hemp, if_neg hsz, if_pos hany2]
                rw [he] at h
                injection h with h2
                rw [← h2, List.length_take, List.length_append, List.length_take]
                omega
              · have he : (sbLoop maxB (NetEvent.data bs :: rest) buf).1 =
                    SbResult.line (buf ++ bs.take (maxB - buf.length)) := by
                  rw [sbLoop.eq_def]
                  dsimp only
                  rw [if_neg hany, if_pos hlt, if_neg hemp, if_neg hsz, if_neg hany2]
                rw [he] at h
                injection h with h2
                rw [← h2, List.length_append, List.length_take]
                omega
      · have he : (sbLoop maxB (ev :: rest) buf).1 = SbResult.line buf := by
          rw [sbLoop.eq_def]
          dsimp only
          rw [if_neg hany, if_neg hlt]
        rw [he] at h
        injection h with h2
        rw [← h2]
        exact hle

theorem tok_HELO_falses (l : List Nat) (h : tokenIs l "HELO" = true) :
    tokenIs l "NOOP" = false ∧ tokenIs l "QUIT" = false ∧ tokenIs l "EHLO" = false ∧
    tokenIs l "RSET" = false ∧ tokenIs l "VRFY" = false ∧ tokenIs l "EXPN" = false ∧
    tokenIs l "HELP" = false ∧ tokenIs l "MAIL" = false ∧ tokenIs l "RCPT" = false ∧
    tokenIs l "DATA" = false :=
  ⟨tokenIs_ne l "HELO" "NOOP" h (by decide), tokenIs_ne l "HELO" "QUIT" h (by decide),
   tokenIs_ne l "HELO" "EHLO" h (by decide), tokenIs_ne l "HELO" "RSET" h (by decide),
   tokenIs_ne l "HELO" "VRFY" h (by decide), tokenIs_ne l "HELO" "EXPN" h (by decide),
   tokenIs_ne l "HELO" "HELP" h (by decide), tokenIs_ne l "HELO" "MAIL" h (by decide),
   tokenIs_ne l "HELO" "RCPT" h (by decide), tokenIs_ne l "HELO" "DATA" h (by decide)⟩

theorem tok_MAIL_falses (l : List Nat) (h : tokenIs l "MAIL" = true) :
    tokenIs l "NOOP" = false ∧ tokenIs l "QUIT" = false ∧ tokenIs l "EHLO" = false ∧
    tokenIs l "RSET" = false ∧ tokenIs l "VRFY" = false ∧ tokenIs l "EXPN" = false ∧
    tokenIs l "HELP" = false ∧ tokenIs l "HELO" = false ∧ tokenIs l "RCPT" = false ∧
    tokenIs l "DATA" = false :=
  ⟨tokenIs_ne l "MAIL" "NOOP" h (by decide), tokenIs_ne l "MAIL" "QUIT" h (by decide),
   tokenIs_ne l "MAIL" "EHLO" h (by decide), tokenIs_ne l "MAIL" "RSET" h (by decide),
   tokenIs_ne l "MAIL" "VRFY" h (by decide), tokenIs_ne l "MAIL" "EXPN" h (by decide),
   tokenIs_ne l "MAIL" "HELP" h (by decide), tokenIs_ne l "MAIL" "HELO" h (by decide),
   tokenIs_ne l "MAIL" "RCPT" h (by decide), tokenIs_ne l "MAIL" "DATA" h (by decide)⟩

theorem tok_RCPT_falses (l : List Nat) (h : tokenIs l "RCPT" = true) :
    tokenIs l "NOOP" = false ∧ tokenIs l "QUIT" = false ∧ tokenIs l "EHLO" = false ∧
    tokenIs l "RSET" = false ∧ tokenIs l "VRFY" = false ∧ tokenIs l "EXPN" = false ∧
    tokenIs l "HELP" = false ∧ tokenIs l "HELO" = false ∧ tokenIs l "MAIL" = false ∧
    tokenIs l "DATA" = false :=
  ⟨tokenIs_ne l "RCPT" "NOOP" h (by decide), tokenIs_ne l "RCPT" "QUIT" h (by decide),
   tokenIs_ne l "RCPT" "EHLO" h (by decide), tokenIs_ne l "RCPT" "RSET" h (by decide),
   tokenIs_ne l "RCPT" "VRFY" h (by decide), tokenIs_ne l "RCPT" "EXPN" h (by decide),
   tokenIs_ne l "RCPT" "HELP" h (by decide), tokenIs_ne l "RCPT" "HELO" h (by decide),
   tokenIs_ne l "RCPT" "MAIL" h (by decide), tokenIs_ne l "RCPT" "DATA" h (by decide)⟩

theorem tok_DATA_falses (l : List Nat) (h : tokenIs l "DATA" = true) :
    tokenIs l "NOOP" = false ∧ tokenIs l "QUIT" = false ∧ tokenIs l "EHLO" = false ∧
    tokenIs l "RSET" = false ∧ tokenIs l "VRFY" = false ∧ tokenIs l "EXPN" = false ∧
    tokenIs l "HELP" = false ∧ tokenIs l "HELO" = false ∧ tokenIs l "MAIL" = false ∧
    tokenIs l "RCPT" = false :=
  ⟨tokenIs_ne l "DATA" "NOOP" h (by decide), tokenIs_ne l "DATA" "QUIT" h (by decide),
   tokenIs_ne l "DATA" "EHLO" h (by decide), tokenIs_ne l "DATA" "RSET" h (by decide),
   tokenIs_ne l "DATA" "VRFY" h (by decide), tokenIs_ne l "DATA" "EXPN" h (by decide),
   tokenIs_ne l "DATA" "HELP" h (by decide), tokenIs_ne l "DATA" "HELO" h (by decide),
   tokenIs_ne l "DATA" "MAIL" h (by decide), tokenIs_ne l "DATA" "RCPT" h (by decide)⟩

/-- In DATA_MODE the terminator line `.` CR LF commits once per recipient
(in list order) and replies `451` exactly when the last commit failed,
clearing the DATA-transaction fields. -/
theorem smtpStep_data_terminator (env : SmtpEnv) (st : SmtpState)
    (hd : st.received_data = true) :
    smtpStep env st [46, 13, 10] =
      .cont { st with received_data := false, toEmail := [], data := [] }
        [if (st.toEmail.map fun r => env.deliver st.fromEmail r st.data).getLast? =
            some false then SmtpReply.r451 else SmtpReply.r250ok]
        (st.toEmail.map fun r =>
          { sender := st.fromEmail, recipient := r, body := st.data }) := by
  have hc : checkCRLF [46, 13, 10] = false := by decide
  have hs : checkCRLFSimple [46, 13, 10] = true := by decide
  have hdot : (cstrStartsDot [46, 13, 10] && (([46, 13, 10] : List Nat).length == 3)) =
      true := by decide
  have hg : ¬ 40 < (firstToken [46, 13, 10]).length := by decide
  simp only [smtpStep, hg, hd, hc, hs, hdot, Bool.false_or, Bool.true_and,
    if_false, if_true]
  rw [foldl_keep_last]
  cases hL : (st.toEmail.map fun r => env.deliver st.fromEmail r st.data).getLast? with
  | none => simp [hL]
  | some b =>
    cases b with
    | false => simp [hL]
    | true => simp [hL]

/-- A DELE line in TRANSACTION either leaves the state unchanged or marks
one item deleted — it never touches anything else. -/
theorem popStep_dele_cases (env : PopEnv) (st : PopState) (line : List Nat)
    (st1 : PopState) (sends : List PopReply)
    (hauth : st.authorization = false) (htr : st.transaction = true)
    (htok : tokenIs (firstToken line) "DELE" = true)
    (hstep : popStep env st line = .cont st1 sends) :
    st1 = st ∨ ∃ i, st1 = { st with mailList := mark_mail_item_deleted st.mailList i } := by
  have hg : ¬ 40 < (firstToken line).length := by
    rw [tokenIs_bounded _ _ htok]
    decide
  by_cases hwf : checkCRLF line = true
  case neg =>
    have hwf2 : checkCRLF line = false := by
      revert hwf
      cases checkCRLF line <;> simp
    simp only [popStep, hg, hwf2, Bool.false_eq_true, if_false] at hstep
    injection hstep with h1 h2
    exact Or.inl h1.symm
  case pos =>
    have nSTAT := tokenIs_ne _ "DELE" "STAT" htok (by decide)
    have nLIST := tokenIs_ne _ "DELE" "LIST" htok (by decide)
    have nRETR := tokenIs_ne _ "DELE" "RETR" htok (by decide)
    simp only [popStep, hg, hwf, hauth, htr, nSTAT, nLIST, nRETR, htok, Bool.false_and,
      Bool.false_eq_true, if_false, if_true] at hstep
    rw [hauth, htr]
    cases hargs : retrieveArgs line with
    | none =>
      rw [hargs] at hstep
      injection hstep with h1 h2
      exact Or.inl h1.symm
    | some arg =>
      rw [hargs] at hstep
      dsimp only at hstep
      by_cases hnum : numbers_only arg = true
      case pos =>
        rw [if_pos hnum] at hstep
        cases hitem : get_mail_item st.mailList (uintSub1 (parseIndex arg)) with
        | some m =>
          rw [hitem] at hstep
          injection hstep with h1 h2
          exact Or.inr ⟨uintSub1 (parseIndex arg), h1.symm⟩
        | none =>
          rw [hitem] at hstep
          injection hstep with h1 h2
          exact Or.inl h1.symm
      case neg =>
        rw [if_neg hnum] at hstep
        injection hstep with h1 h2
        exact Or.inl h1.symm

/-- The RSET computation in TRANSACTION: clear all delete marks and report
the totals of the cleared snapshot. -/
theorem popStep_rset (env : PopEnv) (st : PopState)
    (hauth : st.authorization = false) (htr : st.transaction = true) :
    popStep env st (strBytes "RSET" ++ [13, 10]) =
      .cont { st with mailList := reset_mail_list_deleted_flag st.mailList }
        [sendCountPositive (get_mail_count (reset_mail_list_deleted_flag st.mailList))
          (get_mail_list_size (reset_mail_list_deleted_flag st.mailList))] := by
  have h1 : checkCRLF (strBytes "RSET" ++ [13, 10]) = true := by decide
  have nSTAT : tokenIs (firstToken (strBytes "RSET" ++ [13, 10])) "STAT" = false := by decide
  have nLIST : tokenIs (firstToken (strBytes "RSET" ++ [13, 10])) "LIST" = false := by decide
  have nRETR : tokenIs (firstToken (strBytes "RSET" ++ [13, 10])) "RETR" = false := by decide
  have nDELE : tokenIs (firstToken (strBytes "RSET" ++ [13, 10])) "DELE" = false := by decide
  have nNOOP : tokenIs (firstToken (strBytes "RSET" ++ [13, 10])) "NOOP" = false := by decide
  have hRSET : (tokenIs (firstToken (strBytes "RSET" ++ [13, 10])) "RSET" &&
      ((strBytes "RSET" ++ [13, 10]).length == 6)) = true := by decide
  have hg : ¬ 40 < (firstToken (strBytes "RSET" ++ [13, 10])).length := by decide
  simp only [popStep, hg, h1, hauth, htr, nSTAT, nLIST, nRETR, nDELE, nNOOP, hRSET,
    Bool.false_and, Bool.false_eq_true, if_false, if_true]

/-! ## Claims -/

/-- C10: in the POP3 count replies (`+OK N S` from STAT / LIST / RSET and
the `i size` listing lines) both numbers pass through conversion to a
signed 32-bit C int (`%d` on the `unsigned int` count, `(int)` cast of the
`size_t` size), so the reported numbers equal the true non-deleted count
and total size exactly when those values fit in a signed 32-bit integer;
the STAT reply in TRANSACTION is built from those renderings of the
non-deleted count and size. -/
theorem c10_signed_int_rendering :
    (∀ c s : Nat,
        (sendCountPositive c s = PopReply.okCount c s ↔ c < 2 ^ 31 ∧ s < 2 ^ 31) ∧
        (sendCount c s = PopReply.countLine c s ↔ c < 2 ^ 31 ∧ s < 2 ^ 31)) ∧
    (∀ (env : PopEnv) (st : PopState), st.authorization = false → st.transaction = true →
        popStep env st (strBytes "STAT" ++ [13, 10]) =
          .cont st [sendCountPositive (get_mail_count st.mailList)
            (get_mail_list_size st.mailList)]) := by
  constructor
  · intro c s
    constructor
    · unfold sendCountPositive
      simp only [PopReply.okCount.injEq]
      exact and_congr (toCInt_eq_iff c) (toCInt_eq_iff s)
    · unfold sendCount
      simp only [PopReply.countLine.injEq]
      exact and_congr (toCInt_eq_iff c) (toCInt_eq_iff s)
  · intro env st hauth htrans
    have h1 : checkCRLF (strBytes "STAT" ++ [13, 10]) = true := by decide
    have h2 : (tokenIs (firstToken (strBytes "STAT" ++ [13, 10])) "STAT" &&
        ((strBytes "STAT" ++ [13, 10]).length == 6)) = true := by decide
    have hg : ¬ 40 < (firstToken (strBytes "STAT" ++ [13, 10])).length := by decide
    simp only [popStep, hg, h1, hauth, htrans, h2, Bool.false_eq_true, if_false, if_true]

/-- Witness for C10 at concrete inputs. -/
theorem c10_signed_int_rendering_witness :
    (sendCountPositive 1 100 = PopReply.okCount 1 100 ↔ 1 < 2 ^ 31 ∧ 100 < 2 ^ 31) ∧
    popStep popDemoEnv popTransSt (strBytes "STAT" ++ [13, 10]) =
      .cont popTransSt [sendCountPositive (get_mail_count popTransSt.mailList)
        (get_mail_list_size popTransSt.mailList)] :=
  ⟨(c10_signed_int_rendering.1 1 100).1,
   c10_signed_int_rendering.2 popDemoEnv popTransSt rfl rfl⟩

/-- C2 (amended): outside DATA_MODE a line is well-formed iff its length is
at least 4 — not 3 as claimed — its last two bytes are CR LF, and the byte
before the CR is not whitespace; every other line gets `-ERR` (POP3) or
`500` (SMTP) in every state, PROVIDED the line's first whitespace-delimited
token fits the 41-byte `command` buffer (at most 40 bytes): a longer token
overflows that buffer in `sscanf(reply, "%s", command)` before any check
runs — undefined behaviour, modelled as a crash — in both servers. -/
theorem c2_wellformedness_amended :
    (∀ l : List Nat, checkCRLF l = true ↔
        4 ≤ l.length ∧ l.getD (l.length - 2) 0 = 13 ∧ l.getD (l.length - 1) 0 = 10 ∧
          isspaceB (l.getD (l.length - 3) 0) = false) ∧
    (∀ (env : PopEnv) (st : PopState) (l : List Nat),
        (firstToken l).length ≤ 40 → checkCRLF l = false →
        popStep env st l = .cont st [sendNegative]) ∧
    (∀ (env : SmtpEnv) (st : SmtpState) (l : List Nat),
        (firstToken l).length ≤ 40 → checkCRLF l = false →
        st.received_data = false → smtpStep env st l = .cont st [.r500] []) ∧
    (∀ (env : PopEnv) (st : PopState) (l : List Nat),
        40 < (firstToken l).length → popStep env st l = .crash) ∧
    (∀ (env : SmtpEnv) (st : SmtpState) (l : List Nat),
        40 < (firstToken l).length → smtpStep env st l = .crash) := by
  refine ⟨checkCRLF_iff, ?_, ?_, ?_, ?_⟩
  · intro env st l hcmd h
    have hg : ¬ 40 < (firstToken l).length := by omega
    simp only [popStep, hg, h, Bool.false_eq_true, if_false]
  · intro env st l hcmd h hd
    have hg : ¬ 40 < (firstToken l).length := by omega
    simp only [smtpStep, hg, h, hd, Bool.false_and, Bool.false_or, Bool.or_self,
      Bool.false_eq_true, if_false]
  · intro env st l hcmd
    simp only [popStep, hcmd, if_true]
  · intro env st l hcmd
    simp only [smtpStep, hcmd, if_true]

/-- C2 counterexample: the 3-byte line `A` CR LF satisfies the claimed
well-formedness condition (length ≥ 3, ends CR LF, byte before CR not
whitespace) yet both servers treat it as malformed. -/
theorem c2_counterexample :
    ([65, 13, 10] : List Nat).length = 3 ∧
    ([65, 13, 10] : List Nat).getD 1 0 = 13 ∧ ([65, 13, 10] : List Nat).getD 2 0 = 10 ∧
    isspaceB (([65, 13, 10] : List Nat).getD 0 0) = false ∧
    checkCRLF [65, 13, 10] = false ∧
    popStep popDemoEnv popInit [65, 13, 10] = .cont popInit [sendNegative] ∧
    smtpStep smtpDemoEnv smtpInit [65, 13, 10] = .cont smtpInit [.r500] [] := by
  decide

/-- Witness for C2 at a concrete malformed line (bare CR LF) and at a
concrete 41-byte token that overflows the command buffer. -/
theorem c2_wellformedness_amended_witness :
    popStep popDemoEnv popInit [13, 10] = .cont popInit [sendNegative] ∧
    smtpStep smtpDemoEnv smtpInit [13, 10] = .cont smtpInit [.r500] [] ∧
    popStep popDemoEnv popInit (List.replicate 41 65) = .crash ∧
    smtpStep smtpDemoEnv smtpInit (List.replicate 41 65) = .crash :=
  ⟨c2_wellformedness_amended.2.1 popDemoEnv popInit [13, 10] (by decide) (by decide),
   c2_wellformedness_amended.2.2.1 smtpDemoEnv smtpInit [13, 10] (by decide) (by decide) rfl,
   c2_wellformedness_amended.2.2.2.1 popDemoEnv popInit (List.replicate 41 65) (by decide),
   c2_wellformedness_amended.2.2.2.2 smtpDemoEnv smtpInit (List.replicate 41 65) (by decide)⟩


/-- C7: the reader half of the claim is true — a 1025-byte LF-free stream
makes `sb_read_line` return exactly the first 1024 bytes, which fail both
CRLF checks — but the promised `-ERR` / `500` rejection never happens:
`sscanf(reply, "%s", command)` runs BEFORE the CRLF check in both servers
and, with no field width, writes the whole 1024-byte whitespace-free token
plus a NUL into `char command[41]` — an out-of-bounds write, undefined
behaviour, modelled as a crash — so the truncated over-long line is
precisely an input on which neither server reaches its rejection path. -/
theorem c7_command_buffer_overflow :
    (sb_read_line 1024 [] [NetEvent.data (List.replicate 1025 65)]).1 =
      .line (List.replicate 1024 65) ∧
    checkCRLF (List.replicate 1024 65) = false ∧
    checkCRLFSimple (List.replicate 1024 65) = false ∧
    40 < (firstToken (List.replicate 1024 65)).length ∧
    popStep popDemoEnv popInit (List.replicate 1024 65) = .crash ∧
    smtpStep smtpDemoEnv smtpInit (List.replicate 1024 65) = .crash ∧
    popStep popDemoEnv popInit (List.replicate 1024 65) ≠ .cont popInit [sendNegative] ∧
    smtpStep smtpDemoEnv smtpInit (List.replicate 1024 65) ≠
      .cont smtpInit [SmtpReply.r500] [] := by
  decide

/-- C8: the `sb_read_line` contract — every returned line holds at most
`max_line` bytes and is followed by a written NUL; when the buffer fills
with no LF, the full buffer contents come back as one unterminated line of
exactly `max_line` bytes; an orderly close yields the buffered remainder
(length ≥ 1) or the return value 0 when nothing is buffered; a read error
yields the return value -1. -/
theorem c8_sb_read_line_contract :
    (∀ (maxB : Nat) (buf : List Nat) (stream : List NetEvent) (l : List Nat),
        buf.length ≤ maxB → (sb_read_line maxB buf stream).1 = .line l →
        l.length ≤ maxB ∧ sbOut (.line l) = l ++ [0] ∧ sbRet (.line l) = l.length) ∧
    (∀ (maxB : Nat) (buf : List Nat) (chunks : List (List Nat)) (rest : List NetEvent),
        buf.length ≤ maxB → (∀ c ∈ chunks, c ≠ []) →
        (10 : Nat) ∉ buf ++ chunks.flatten → maxB ≤ (buf ++ chunks.flatten).length →
        (sb_read_line maxB buf (chunks.map NetEvent.data ++ rest)).1 =
          .line ((buf ++ chunks.flatten).take maxB) ∧
        ((buf ++ chunks.flatten).take maxB).length = maxB) ∧
    (∀ (maxB : Nat) (buf : List Nat) (rest : List NetEvent),
        (10 : Nat) ∉ buf → buf.length < maxB →
        (buf = [] → (sb_read_line maxB buf (NetEvent.closedEv :: rest)).1 = .closedRes ∧
          sbRet .closedRes = 0) ∧
        (buf ≠ [] → (sb_read_line maxB buf (NetEvent.closedEv :: rest)).1 = .line buf ∧
          1 ≤ buf.length)) ∧
    (∀ (maxB : Nat) (buf : List Nat) (rest : List NetEvent),
        (10 : Nat) ∉ buf → buf.length < maxB →
        (sb_read_line maxB buf (NetEvent.errEv :: rest)).1 = .errRes ∧
          sbRet .errRes = -1) := by
  refine ⟨?_, ?_, ?_, ?_⟩
  · intro maxB buf stream l hle h
    exact ⟨sbLoop_line_length stream maxB buf l hle h, rfl, rfl⟩
  · intro maxB buf chunks rest h1 h2 h3 h4
    refine ⟨sbLoop_fill chunks maxB buf rest h1 h2 h3 h4, ?_⟩
    rw [List.length_take]
    omega
  · intro maxB buf rest hnl hlt
    have hany : (buf.any fun c => c == 10) = false := any10_eq_false _ hnl
    constructor
    · intro hbe
      subst hbe
      refine ⟨?_, rfl⟩
      unfold sb_read_line
      rw [sbLoop.eq_def]
      dsimp only
      rw [if_neg (by rw [hany]; exact Bool.false_ne_true), if_pos hlt]
      rfl
    · intro hne
      refine ⟨?_, ?_⟩
      · have hemp : buf.isEmpty = false := by
          cases buf with
          | nil => exact absurd rfl hne
          | cons a t => rfl
        unfold sb_read_line
        rw [sbLoop.eq_def]
        dsimp only
        rw [if_neg (by rw [hany]; exact Bool.false_ne_true), if_pos hlt,
            if_neg (by rw [hemp]; exact Bool.false_ne_true)]
      · cases buf with
        | nil => exact absurd rfl hne
        | cons a t => simp
  · intro maxB buf rest hnl hlt
    have hany : (buf.any fun c => c == 10) = false := any10_eq_false _ hnl
    refine ⟨?_, rfl⟩
    unfold sb_read_line
    rw [sbLoop.eq_def]
    dsimp only
    rw [if_neg (by rw [hany]; exact Bool.false_ne_true), if_pos hlt]

/-- Witness for C8 at concrete inputs (maximum size 4). -/
theorem c8_sb_read_line_contract_witness :
    ((sb_read_line 4 [] ([[65, 66, 67, 68, 69]].map NetEvent.data ++ [])).1 =
      .line (([] ++ [[65, 66, 67, 68, 69]].flatten).take 4) ∧
      (([] ++ [[65, 66, 67, 68, 69]].flatten).take 4).length = 4) ∧
    ((sb_read_line 4 ([] : List Nat) [NetEvent.closedEv]).1 = .closedRes ∧
      sbRet .closedRes = 0) ∧
    ((sb_read_line 4 [65] [NetEvent.closedEv]).1 = .line [65] ∧ 1 ≤ [65].length) ∧
    ((sb_read_line 4 [65] [NetEvent.errEv]).1 = .errRes ∧ sbRet .errRes = -1) :=
  ⟨c8_sb_read_line_contract.2.1 4 [] [[65, 66, 67, 68, 69]] []
      (by decide) (by decide) (by decide) (by decide),
   (c8_sb_read_line_contract.2.2.1 4 [] [] (by decide) (by decide)).1 rfl,
   (c8_sb_read_line_contract.2.2.1 4 [65] [] (by decide) (by decide)).2 (by decide),
   c8_sb_read_line_contract.2.2.2 4 [65] [] (by decide) (by decide)⟩


/-- C9: for every well-formed line whose command token is MAIL, RCPT or
DATA issued from a state where spec section 4.3 mandates `503 Bad sequence
of commands` (captured by `mandates503`), the SMTP server replies exactly
`503` and leaves the state unchanged — in particular it never emits
`250 OK` there. -/
theorem c9_no_250_on_bad_sequence (env : SmtpEnv) (st : SmtpState) (line : List Nat)
    (hwf : checkCRLF line = true) (hm : mandates503 st (firstToken line) = true) :
    smtpStep env st line = .cont st [.r503] [] := by
  cases hdd : st.received_data with
  | true =>
    unfold mandates503 at hm
    rw [if_pos hdd] at hm
    exact absurd hm Bool.false_ne_true
  | false =>
    cases hmm : st.received_mail with
    | true =>
      have hm2 : (tokenIs (firstToken line) "HELO" = true ∨
          tokenIs (firstToken line) "MAIL" = true) ∨
          tokenIs (firstToken line) "DATA" = true := by
        simpa [mandates503, hdd, hmm] using hm
      rcases hm2 with (h | h) | h
      · obtain ⟨n1, n2, n3, n4, n5, n6, n7, n8, n9, n10⟩ := tok_HELO_falses _ h
        have hg : ¬ 40 < (firstToken line).length := by
          rw [tokenIs_bounded _ _ h]
          decide
        simp [smtpStep, hg, hwf, hdd, hmm, h, n1, n2, n3, n4, n5, n6, n7, n8, n9, n10]
      · obtain ⟨n1, n2, n3, n4, n5, n6, n7, n8, n9, n10⟩ := tok_MAIL_falses _ h
        have hg : ¬ 40 < (firstToken line).length := by
          rw [tokenIs_bounded _ _ h]
          decide
        simp [smtpStep, hg, hwf, hdd, hmm, h, n1, n2, n3, n4, n5, n6, n7, n8, n9, n10]
      · obtain ⟨n1, n2, n3, n4, n5, n6, n7, n8, n9, n10⟩ := tok_DATA_falses _ h
        have hg : ¬ 40 < (firstToken line).length := by
          rw [tokenIs_bounded _ _ h]
          decide
        simp [smtpStep, hg, hwf, hdd, hmm, h, n1, n2, n3, n4, n5, n6, n7, n8, n9, n10]
    | false =>
      cases hrr : st.received_rcpt with
      | true =>
        have hm2 : tokenIs (firstToken line) "HELO" = true ∨
            tokenIs (firstToken line) "MAIL" = true := by
          simpa [mandates503, hdd, hmm, hrr] using hm
        rcases hm2 with h | h
        · obtain ⟨n1, n2, n3, n4, n5, n6, n7, n8, n9, n10⟩ := tok_HELO_falses _ h
          have hg : ¬ 40 < (firstToken line).length := by
            rw [tokenIs_bounded _ _ h]
            decide
          simp [smtpStep, hg, hwf, hdd, hmm, hrr, h, n1, n2, n3, n4, n5, n6, n7, n8, n9, n10]
        · obtain ⟨n1, n2, n3, n4, n5, n6, n7, n8, n9, n10⟩ := tok_MAIL_falses _ h
          have hg : ¬ 40 < (firstToken line).length := by
            rw [tokenIs_bounded _ _ h]
            decide
          simp [smtpStep, hg, hwf, hdd, hmm, hrr, h, n1, n2, n3, n4, n5, n6, n7, n8, n9, n10]
      | false =>
        cases hhh : st.received_helo with
        | true =>
          have hm2 : (tokenIs (firstToken line) "HELO" = true ∨
              tokenIs (firstToken line) "RCPT" = true) ∨
              tokenIs (firstToken line) "DATA" = true := by
            simpa [mandates503, hdd, hmm, hrr, hhh] using hm
          rcases hm2 with (h | h) | h
          · obtain ⟨n1, n2, n3, n4, n5, n6, n7, n8, n9, n10⟩ := tok_HELO_falses _ h
            have hg : ¬ 40 < (firstToken line).length := by
              rw [tokenIs_bounded _ _ h]
              decide
            simp [smtpStep, hg, hwf, hdd, hmm, hrr, hhh, h,
              n1, n2, n3, n4, n5, n6, n7, n8, n9, n10]
          · obtain ⟨n1, n2, n3, n4, n5, n6, n7, n8, n9, n10⟩ := tok_RCPT_falses _ h
            have hg : ¬ 40 < (firstToken line).length := by
              rw [tokenIs_bounded _ _ h]
              decide
            simp [smtpStep, hg, hwf, hdd, hmm, hrr, hhh, h,
              n1, n2, n3, n4, n5, n6, n7, n8, n9, n10]
          · obtain ⟨n1, n2, n3, n4, n5, n6, n7, n8, n9, n10⟩ := tok_DATA_falses _ h
            have hg : ¬ 40 < (firstToken line).length := by
              rw [tokenIs_bounded _ _ h]
              decide
            simp [smtpStep, hg, hwf, hdd, hmm, hrr, hhh, h,
              n1, n2, n3, n4, n5, n6, n7, n8, n9, n10]
        | false =>
          have hm2 : (tokenIs (firstToken line) "MAIL" = true ∨
              tokenIs (firstToken line) "RCPT" = true) ∨
              tokenIs (firstToken line) "DATA" = true := by
            simpa [mandates503, hdd, hmm, hrr, hhh] using hm
          rcases hm2 with (h | h) | h
          · obtain ⟨n1, n2, n3, n4, n5, n6, n7, n8, n9, n10⟩ := tok_MAIL_falses _ h
            have hg : ¬ 40 < (firstToken line).length := by
              rw [tokenIs_bounded _ _ h]
              decide
            simp [smtpStep, hg, hwf, hdd, hmm, hrr, hhh, h,
              n1, n2, n3, n4, n5, n6, n7, n8, n9, n10]
          · obtain ⟨n1, n2, n3, n4, n5, n6, n7, n8, n9, n10⟩ := tok_RCPT_falses _ h
            have hg : ¬ 40 < (firstToken line).length := by
              rw [tokenIs_bounded _ _ h]
              decide
            simp [smtpStep, hg, hwf, hdd, hmm, hrr, hhh, h,
              n1, n2, n3, n4, n5, n6, n7, n8, n9, n10]
          · obtain ⟨n1, n2, n3, n4, n5, n6, n7, n8, n9, n10⟩ := tok_DATA_falses _ h
            have hg : ¬ 40 < (firstToken line).length := by
              rw [tokenIs_bounded _ _ h]
              decide
            simp [smtpStep, hg, hwf, hdd, hmm, hrr, hhh, h,
              n1, n2, n3, n4, n5, n6, n7, n8, n9, n10]

/-- Witness for C9: `MAIL FROM:<a@x>` in the GREETED state draws `503`. -/
theorem c9_no_250_on_bad_sequence_witness :
    smtpStep smtpDemoEnv smtpInit (strBytes "MAIL FROM:<a@x>" ++ [13, 10]) =
      .cont smtpInit [.r503] [] :=
  c9_no_250_on_bad_sequence smtpDemoEnv smtpInit (strBytes "MAIL FROM:<a@x>" ++ [13, 10])
    (by decide) (by decide)

/-- C1 (amended): on the DATA terminator `.` CR LF the server calls
`saveEmail` once per recipient of `forward_paths`, in order, then clears the
DATA state and replies `451` exactly when the LAST recipient's commit
failed, `250 OK` otherwise — failures of earlier commits do not affect the
reply. -/
theorem c1_end_of_data_last_result (env : SmtpEnv) (st : SmtpState)
    (hd : st.received_data = true) :
    smtpStep env st [46, 13, 10] =
      .cont { st with received_data := false, toEmail := [], data := [] }
        [if (st.toEmail.map fun r => env.deliver st.fromEmail r st.data).getLast? =
            some false then SmtpReply.r451 else SmtpReply.r250ok]
        (st.toEmail.map fun r =>
          { sender := st.fromEmail, recipient := r, body := st.data }) :=
  smtpStep_data_terminator env st hd

/-- Witness for C1: one pending recipient whose commit fails draws `451`. -/
theorem c1_end_of_data_last_result_witness :
    smtpStep c1WEnv c1WSt [46, 13, 10] =
      .cont { c1WSt with received_data := false, toEmail := [], data := [] }
        [if (c1WSt.toEmail.map fun r =>
            c1WEnv.deliver c1WSt.fromEmail r c1WSt.data).getLast? =
            some false then SmtpReply.r451 else SmtpReply.r250ok]
        (c1WSt.toEmail.map fun r =>
          { sender := c1WSt.fromEmail, recipient := r, body := c1WSt.data }) :=
  c1_end_of_data_last_result c1WEnv c1WSt rfl

/-- C1 counterexample: two recipients, the commit for `u1` fails and the
commit for `u2` succeeds, yet the reply is `250 OK`, not `451`. -/
theorem c1_counterexample :
    c1Env.deliver c1St.fromEmail (strBytes "u1") c1St.data = false ∧
    smtpStep c1Env c1St [46, 13, 10] =
      .cont { c1St with received_data := false, toEmail := [], data := [] }
        [SmtpReply.r250ok]
        [{ sender := strBytes "a@x", recipient := strBytes "u1",
           body := strBytes "hi" ++ [13, 10] },
         { sender := strBytes "a@x", recipient := strBytes "u2",
           body := strBytes "hi" ++ [13, 10] }] := by
  decide

/-- C3 (amended): in AUTHORIZATION, `accepted_username` is set by a
successful USER and cleared by every PASS failure (no prior accepted USER
or missing argument, and bad password), each failure replying `-ERR`; a
USER whose name does not resolve also replies `-ERR` but leaves the
accepted flag unchanged while overwriting the stored username. -/
theorem c3_accepted_user_amended :
    (∀ (env : PopEnv) (st : PopState) (line arg : List Nat),
        st.authorization = true → checkCRLF line = true →
        tokenIs (firstToken line) "USER" = true → (line.length != 6) = true →
        retrieveArgs line = some arg →
        (env.validUser arg = true →
          popStep env st line =
            .cont { st with username := arg, accepted_user := true } [sendPositive]) ∧
        (env.validUser arg = false →
          popStep env st line = .cont { st with username := arg } [sendNegative])) ∧
    (∀ (env : PopEnv) (st : PopState) (line : List Nat),
        st.authorization = true → checkCRLF line = true →
        tokenIs (firstToken line) "PASS" = true →
        (st.accepted_user && line.length != 6) = false →
        popStep env st line = .cont { st with accepted_user := false } [sendNegative]) ∧
    (∀ (env : PopEnv) (st : PopState) (line pw : List Nat),
        st.authorization = true → checkCRLF line = true →
        tokenIs (firstToken line) "PASS" = true →
        (st.accepted_user && line.length != 6) = true →
        retrieveArgs line = some pw → env.checkPass st.username pw = false →
        popStep env st line = .cont { st with accepted_user := false } [sendNegative]) := by
  refine ⟨?_, ?_, ?_⟩
  · intro env st line arg hauth hwf htok hlen hargs
    have hg : ¬ 40 < (firstToken line).length := by
      rw [tokenIs_bounded _ _ htok]
      decide
    constructor
    · intro hv
      simp only [popStep, hg, hauth, hwf, htok, hlen, hargs, hv, if_false, if_true]
    · intro hv
      simp only [popStep, hg, hauth, hwf, htok, hlen, hargs, hv, Bool.false_eq_true,
        if_false, if_true]
  · intro env st line hauth hwf htok hcond
    have hg : ¬ 40 < (firstToken line).length := by
      rw [tokenIs_bounded _ _ htok]
      decide
    have nUSER := tokenIs_ne _ "PASS" "USER" htok (by decide)
    simp only [popStep, hg, hauth, hwf, nUSER, htok, hcond, Bool.false_eq_true,
      if_false, if_true]
  · intro env st line pw hauth hwf htok hcond hargs hcp
    have hg : ¬ 40 < (firstToken line).length := by
      rw [tokenIs_bounded _ _ htok]
      decide
    have nUSER := tokenIs_ne _ "PASS" "USER" htok (by decide)
    simp only [popStep, hg, hauth, hwf, nUSER, htok, hcond, hargs, hcp, Bool.false_eq_true,
      if_false, if_true]

/-- C3 counterexample: after a successful `USER alice`, the failing
`USER bob` replies `-ERR` but leaves `accepted_user` set (the claim says
any failure clears it). -/
theorem c3_counterexample :
    popStep popDemoEnv popInit (strBytes "USER alice" ++ [13, 10]) =
      .cont c3St [sendPositive] ∧
    popDemoEnv.validUser (strBytes "bob") = false ∧
    popStep popDemoEnv c3St (strBytes "USER bob" ++ [13, 10]) =
      .cont c3St2 [sendNegative] ∧
    c3St2.accepted_user = true := by
  decide

/-- Witness for C3 on concrete lines. -/
theorem c3_accepted_user_amended_witness :
    popStep popDemoEnv popInit (strBytes "USER alice" ++ [13, 10]) =
      .cont { popInit with username := strBytes "alice", accepted_user := true }
        [sendPositive] ∧
    popStep popDemoEnv c3St (strBytes "PASS nope" ++ [13, 10]) =
      .cont { c3St with accepted_user := false } [sendNegative] ∧
    popStep popDemoEnv popInit (strBytes "PASS pw" ++ [13, 10]) =
      .cont { popInit with accepted_user := false } [sendNegative] :=
  ⟨(c3_accepted_user_amended.1 popDemoEnv popInit (strBytes "USER alice" ++ [13, 10])
      (strBytes "alice") rfl (by decide) (by decide) (by decide) (by decide)).1 (by decide),
   c3_accepted_user_amended.2.2 popDemoEnv c3St (strBytes "PASS nope" ++ [13, 10])
     (strBytes "nope") rfl (by decide) (by decide) (by decide) (by decide) (by decide),
   c3_accepted_user_amended.2.1 popDemoEnv popInit (strBytes "PASS pw" ++ [13, 10])
     rfl (by decide) (by decide) (by decide)⟩

/-- C4: after HELO, MAIL and 30 accepted RCPTs the recipient list already
holds 30 entries, and a 31st valid RCPT is still answered `250 OK` and
appended, making `rcpt_count` 31 — the code has no bound check, so the C
array write `toEmail[rcpt_count++]` goes out of bounds; the claimed 30-entry
bound is violated. -/
theorem c4_thirty_first_rcpt_accepted :
    (smtpRun c4Env smtpInit (c4Lines 30)).toEmail.length = 30 ∧
    smtpStep c4Env (smtpRun c4Env smtpInit (c4Lines 30))
        (strBytes "RCPT TO:<bob@host>" ++ [13, 10]) =
      .cont (smtpRun c4Env smtpInit (c4Lines 31)) [.r250ok] [] ∧
    (smtpRun c4Env smtpInit (c4Lines 31)).toEmail.length = 31 := by
  decide

/-- C6 (amended): provided no item is marked deleted before the DELE —
which is what the spec scenario presumes — a DELE followed by RSET reports
and restores exactly the pre-DELE non-deleted count and total size; with a
prior deletion RSET resurrects it too, so the general claim fails. -/
theorem c6_dele_rset_amended (env : PopEnv) (st : PopState) (line : List Nat)
    (st1 : PopState) (sends : List PopReply)
    (hauth : st.authorization = false) (htr : st.transaction = true)
    (hall : ∀ m ∈ st.mailList, m.deleted = false)
    (htok : tokenIs (firstToken line) "DELE" = true)
    (hstep : popStep env st line = .cont st1 sends) :
    popStep env st1 (strBytes "RSET" ++ [13, 10]) =
      .cont { st1 with mailList := reset_mail_list_deleted_flag st1.mailList }
        [sendCountPositive (get_mail_count st.mailList)
          (get_mail_list_size st.mailList)] := by
  rcases popStep_dele_cases env st line st1 sends hauth htr htok hstep with h1 | ⟨i, h1⟩
  · subst h1
    rw [popStep_rset env st1 hauth htr]
    have hres : reset_mail_list_deleted_flag st1.mailList = st1.mailList :=
      reset_of_all_false _ hall
    rw [hres]
  · subst h1
    rw [popStep_rset env
        { st with mailList := mark_mail_item_deleted st.mailList i } hauth htr]
    have hres : reset_mail_list_deleted_flag
        (mark_mail_item_deleted st.mailList i) = st.mailList := by
      rw [reset_mark]
      exact reset_of_all_false _ hall
    dsimp only
    rw [hres]

/-- C6 counterexample: reachable session (USER, PASS, DELE 1) with item 1
already deleted; immediately before `DELE 2` the totals are (1, 20), but
after `DELE 2` then `RSET` the reply and snapshot show (2, 30). -/
theorem c6_counterexample :
    popStep c6Env popInit (strBytes "USER alice" ++ [13, 10]) =
      .cont c6StAuth [sendPositive] ∧
    popStep c6Env c6StAuth (strBytes "PASS pw" ++ [13, 10]) =
      .cont c6StTr [sendPositive] ∧
    popStep c6Env c6StTr (strBytes "DELE 1" ++ [13, 10]) =
      .cont c6StPre [sendPositive] ∧
    get_mail_count c6StPre.mailList = 1 ∧ get_mail_list_size c6StPre.mailList = 20 ∧
    popStep c6Env c6StPre (strBytes "DELE 2" ++ [13, 10]) =
      .cont c6StPost [sendPositive] ∧
    popStep c6Env c6StPost (strBytes "RSET" ++ [13, 10]) =
      .cont c6StReset [sendCountPositive 2 30] ∧
    get_mail_count c6StReset.mailList = 2 ∧
    get_mail_list_size c6StReset.mailList = 30 := by
  decide

/-- Witness for C6: a fresh one-item mailbox, `DELE 1` then `RSET` reports
the pre-DELE totals (1, 100). -/
theorem c6_dele_rset_amended_witness :
    popStep popDemoEnv c6WStDeleted (strBytes "RSET" ++ [13, 10]) =
      .cont { c6WStDeleted with
          mailList := reset_mail_list_deleted_flag c6WStDeleted.mailList }
        [sendCountPositive (get_mail_count popTransSt.mailList)
          (get_mail_list_size popTransSt.mailList)] :=
  c6_dele_rset_amended popDemoEnv popTransSt (strBytes "DELE 1" ++ [13, 10])
    c6WStDeleted [sendPositive] rfl rfl (by decide) (by decide) (by decide)

end MailServer
